import Mathlib

/-!
Verification of the user-and-role-management command parsing layer
(`mongo/db/auth/user_management_commands_parser.cpp`).

The BSON document library, the `bsonExtract*` helpers, the password digest
routine and the privilege-specification grammar are external collaborators of
that file; they are modelled here from the specification (each such definition
says so in its doc comment), while every parsing function of the source file
itself is translated directly.
-/

namespace Mongo

/-- Error codes used by the parsing layer (subset of the server's
`ErrorCodes` enumeration actually reachable from this file). -/
inductive ErrorCodes where
  | OK
  | BadValue
  | NoSuchKey
  | TypeMismatch
  | FailedToParse
deriving DecidableEq, Repr

/-- A `Status` is an error code plus a reason string; `Status::OK()` is the
code `OK` with an empty reason. -/
structure Status where
  code : ErrorCodes
  reason : String
deriving DecidableEq, Repr

/-- `Status::OK()`. -/
def statusOK : Status := ⟨ErrorCodes.OK, ""⟩

/-- `Status::isOK()`. -/
def Status.isOK (s : Status) : Bool := s.code == ErrorCodes.OK

/-- BSON values, restricted to the types this parsing layer inspects.
`numDouble` carries a rational standing for the floating-point payload. -/
inductive BSONValue where
  | string (s : String)
  | object (fields : List (String × BSONValue))
  | array (elems : List BSONValue)
  | bool (b : Bool)
  | numInt (n : Int)
  | numLong (n : Int)
  | numDouble (q : Rat)
  | null
deriving Repr

/-- BSON type tags (`String`, `Object`, `Array`, `Bool`, `NumberInt`,
`NumberLong`, `NumberDouble`, `jstNULL`, `EOO`). -/
inductive BSONType where
  | eoo
  | string
  | object
  | array
  | bool
  | numInt
  | numLong
  | numDouble
  | null
deriving DecidableEq, Repr

/-- `BSONElement::type()` for a present value. -/
def BSONValue.type : BSONValue → BSONType
  | .string _ => .string
  | .object _ => .object
  | .array _ => .array
  | .bool _ => .bool
  | .numInt _ => .numInt
  | .numLong _ => .numLong
  | .numDouble _ => .numDouble
  | .null => .null

/-- Narrowing of a (64-bit) integer value to a signed 32-bit value, as the
C `(int)` cast performs on a long. -/
def int32cast (n : Int) : Int :=
  let m := n % 4294967296
  if m < 2147483648 then m else m - 4294967296

/-- Truncation of a rational toward zero, as the C `(int)` cast performs on an
in-range double. -/
def ratTruncToInt (q : Rat) : Int := Int.tdiv q.num (Int.ofNat q.den)

/-- Modelled from the spec: `BSONElement::numberInt()` of the document
library (not part of this file's source). Numeric values coerce to their
integer value (doubles truncated toward zero, longs narrowed to 32 bits);
every non-numeric type, booleans included, coerces to `0`.  The spec treats
the selector dispatch as "numeric `1`" with all other shapes falling through
(§4.5, §9). -/
def BSONValue.numberInt : BSONValue → Int
  | .numDouble q => ratTruncToInt q
  | .numInt n => n
  | .numLong n => int32cast n
  | _ => 0

/-- `BSONElement::String()` payload of a string value. -/
def BSONValue.strValue : BSONValue → String
  | .string s => s
  | _ => ""

/-- `BSONElement::Obj()` payload of an object value. -/
def BSONValue.objFields : BSONValue → List (String × BSONValue)
  | .object o => o
  | _ => []

/-- `BSONArray(element.Obj())` payload of an array value. -/
def BSONValue.arrayElems : BSONValue → List BSONValue
  | .array l => l
  | _ => []

/-- A BSON document: its fields, in document order. -/
abbrev BSONObj := List (String × BSONValue)

/-- A `BSONElement` as handed out by field lookup: `none` models the EOO
element returned for an absent field. -/
abbrev BSONElement := Option BSONValue

/-- `BSONObj::getField`: first field with the given name, EOO when absent. -/
def getField (o : BSONObj) (fieldName : String) : BSONElement :=
  match o.find? (fun kv => kv.1 == fieldName) with
  | some kv => some kv.2
  | none => none

/-- `BSONObj::hasField`. -/
def hasField (o : BSONObj) (fieldName : String) : Bool :=
  (getField o fieldName).isSome

/-- `BSONElement::type()`, with EOO for an absent element. -/
def elemType : BSONElement → BSONType
  | none => .eoo
  | some v => v.type

/-- `BSONElement::numberInt()`, `0` on EOO. -/
def elemNumberInt : BSONElement → Int
  | none => 0
  | some v => v.numberInt

/-- Modelled from the spec: `bsonExtractField` of the document-library
collaborator (§6); a required field that is entirely absent surfaces
`NoSuchKey` (§7), with the offending field name in the reason. -/
def bsonExtractField (o : BSONObj) (fieldName : String) : Except Status BSONValue :=
  match getField o fieldName with
  | none => .error ⟨ErrorCodes.NoSuchKey, "Missing expected field \"" ++ fieldName ++ "\""⟩
  | some v => .ok v

/-- Modelled from the spec: `bsonExtractTypedField` of the document-library
collaborator (§6); a present field of the wrong type yields a type-mismatch
error naming the field (§7), propagated unchanged. -/
def bsonExtractTypedField (o : BSONObj) (fieldName : String) (t : BSONType) :
    Except Status BSONValue :=
  match bsonExtractField o fieldName with
  | .error st => .error st
  | .ok v =>
    if v.type = t then .ok v
    else .error ⟨ErrorCodes.TypeMismatch, "\"" ++ fieldName ++ "\" had the wrong type"⟩

/-- Modelled from the spec: `bsonExtractStringField` of the document-library
collaborator — typed extraction at BSON type `String`, returning the string
payload. -/
def bsonExtractStringField (o : BSONObj) (fieldName : String) : Except Status String :=
  match bsonExtractTypedField o fieldName BSONType.string with
  | .error st => .error st
  | .ok v => .ok v.strValue

/-- `BSONElement::trueValue()` on the types accepted by boolean extraction. -/
def BSONValue.trueValue : BSONValue → Bool
  | .bool b => b
  | .numInt n => n != 0
  | .numLong n => n != 0
  | .numDouble q => q != 0
  | _ => false

/-- Whether a value is numeric or boolean. -/
def BSONValue.isNumberOrBool : BSONValue → Bool
  | .bool _ => true
  | .numInt _ => true
  | .numLong _ => true
  | .numDouble _ => true
  | _ => false

/-- Modelled from the spec: `bsonExtractBooleanFieldWithDefault` of the
document-library collaborator — optional boolean field, defaulted when
absent (§6: "boolean, optional, default false"); a present value that is
neither boolean nor numeric is a type mismatch (§7). -/
def bsonExtractBooleanFieldWithDefault (o : BSONObj) (fieldName : String)
    (defaultValue : Bool) : Except Status Bool :=
  match getField o fieldName with
  | none => .ok defaultValue
  | some v =>
    if v.isNumberOrBool then .ok v.trueValue
    else .error ⟨ErrorCodes.TypeMismatch,
      "Expected boolean or number type for field \"" ++ fieldName ++ "\""⟩

/-- A user principal name: local name plus source namespace (`db`). -/
structure UserName where
  user : String
  db : String
deriving DecidableEq, Repr

/-- A role principal name: local name plus source namespace (`db`). -/
structure RoleName where
  role : String
  db : String
deriving DecidableEq, Repr

/-- Modelled from the spec: `AuthorizationManager::USER_NAME_FIELD_NAME`
(§6: nameField/sourceField are `user`/`db` for user names). -/
def USER_NAME_FIELD_NAME : String := "user"

/-- Modelled from the spec: `AuthorizationManager::USER_SOURCE_FIELD_NAME`. -/
def USER_SOURCE_FIELD_NAME : String := "db"

/-- Modelled from the spec: `AuthorizationManager::ROLE_NAME_FIELD_NAME`
(§6: nameField/sourceField are `role`/`db` for role names). -/
def ROLE_NAME_FIELD_NAME : String := "role"

/-- Modelled from the spec: `AuthorizationManager::ROLE_SOURCE_FIELD_NAME`. -/
def ROLE_SOURCE_FIELD_NAME : String := "db"

/-- Modelled from the spec: the external password digest collaborator
(`auth::createPasswordDigest`).  The spec states only that hashing is
deterministic and binds the clear-text password to the user's local name;
an injective pairing of the two inputs stands in for the digest. -/
def createPasswordDigest (user : String) (clearTextPassword : String) : String :=
  user ++ ":" ++ clearTextPassword

/-- `_extractWriteConcern`: optional object field `writeConcern`; absent
yields the empty document, a present non-object propagates the type error. -/
def _extractWriteConcern (cmdObj : BSONObj) : Except Status BSONObj :=
  match bsonExtractTypedField cmdObj "writeConcern" BSONType.object with
  | .error st =>
    if st.code = ErrorCodes.NoSuchKey then .ok []
    else .error st
  | .ok writeConcernElement => .ok writeConcernElement.objFields

/-- `_checkNoExtraFields`: iterate the fields of the command object in
document order and fail on the first one not in the allowed set. -/
def _checkNoExtraFields (cmdObj : BSONObj) (cmdName : String)
    (validFieldNames : List String) : Except Status Unit :=
  match cmdObj with
  | [] => .ok ()
  | kv :: rest =>
    if validFieldNames.contains kv.1 then
      _checkNoExtraFields rest cmdName validFieldNames
    else
      .error ⟨ErrorCodes.BadValue,
        "\"" ++ kv.1 ++ "\" is not a valid argument to " ++ cmdName⟩

/-- `_parseNameFromBSONElement`, generic over the name type exactly as the
C++ template is; `mkName` is the `Name(local, source)` constructor. -/
def _parseNameFromBSONElement {Name : Type} (mkName : String → String → Name)
    (element : BSONElement) (dbname nameFieldName sourceFieldName : String) :
    Except Status Name :=
  if elemType element = BSONType.string then
    .ok (mkName ((element.getD BSONValue.null).strValue) dbname)
  else if elemType element = BSONType.object then
    let obj := (element.getD BSONValue.null).objFields
    match bsonExtractStringField obj nameFieldName with
    | .error st => .error st
    | .ok name =>
      match bsonExtractStringField obj sourceFieldName with
      | .error st => .error st
      | .ok source => .ok (mkName name source)
  else
    .error ⟨ErrorCodes.BadValue, "User and role names must be either strings or objects"⟩

/-- `_parseNamesFromBSONArray`: the `parsedNames` argument is the current
contents of the caller's output vector, and the second component of the
result is its final contents (names are pushed as they resolve, so they
remain there when a later element fails, just as the C++ out-parameter
keeps them). -/
def _parseNamesFromBSONArray {Name : Type} (mkName : String → String → Name)
    (array : List BSONValue) (dbname nameFieldName sourceFieldName : String)
    (parsedNames : List Name) : Status × List Name :=
  match array with
  | [] => (statusOK, parsedNames)
  | element :: rest =>
    match _parseNameFromBSONElement mkName (some element)
        dbname nameFieldName sourceFieldName with
    | .error st => (st, parsedNames)
    | .ok name =>
      _parseNamesFromBSONArray mkName rest dbname nameFieldName sourceFieldName
        (parsedNames ++ [name])

/-- `_parseUserNamesFromBSONArray`. -/
def _parseUserNamesFromBSONArray (usersArray : List BSONValue) (dbname : String)
    (parsedUserNames : List UserName) : Status × List UserName :=
  _parseNamesFromBSONArray UserName.mk usersArray dbname
    USER_NAME_FIELD_NAME USER_SOURCE_FIELD_NAME parsedUserNames

/-- `parseRoleNamesFromBSONArray`. -/
def parseRoleNamesFromBSONArray (rolesArray : List BSONValue) (dbname : String)
    (parsedRoleNames : List RoleName) : Status × List RoleName :=
  _parseNamesFromBSONArray RoleName.mk rolesArray dbname
    ROLE_NAME_FIELD_NAME ROLE_SOURCE_FIELD_NAME parsedRoleNames

/-- Allowed-field set built by `parseRolePossessionManipulationCommands`. -/
def rolePossessionValidFieldNames (cmdName rolesFieldName : String) : List String :=
  [cmdName, rolesFieldName, "writeConcern"]

/-- `parseRolePossessionManipulationCommands` (grant/revoke roles to/from a
user or role): allowlist, write concern, target name string, required
`roles` array, resolved and required non-empty. -/
def parseRolePossessionManipulationCommands (cmdObj : BSONObj)
    (cmdName rolesFieldName : String) (dbname : String) :
    Except Status (String × List RoleName × BSONObj) :=
  match _checkNoExtraFields cmdObj cmdName
      (rolePossessionValidFieldNames cmdName rolesFieldName) with
  | .error st => .error st
  | .ok _ =>
  match _extractWriteConcern cmdObj with
  | .error st => .error st
  | .ok parsedWriteConcern =>
  match bsonExtractStringField cmdObj cmdName with
  | .error st => .error st
  | .ok parsedName =>
  match bsonExtractTypedField cmdObj rolesFieldName BSONType.array with
  | .error st => .error st
  | .ok rolesElement =>
  match parseRoleNamesFromBSONArray rolesElement.arrayElems dbname [] with
  | (st, parsedRoleNames) =>
    if st.isOK then
      if parsedRoleNames.length = 0 then
        .error ⟨ErrorCodes.BadValue,
          cmdName ++ " command requires a non-empty \"" ++ rolesFieldName ++ "\" array"⟩
      else .ok (parsedName, parsedRoleNames, parsedWriteConcern)
    else .error st

/-- `CreateOrUpdateUserArgs`; the presence flags start out `false`
(modelled from the spec: optional fields are flagged by presence booleans,
absent unless the field was parsed). -/
structure CreateOrUpdateUserArgs where
  userName : UserName := ⟨"", ""⟩
  hasHashedPassword : Bool := false
  hashedPassword : String := ""
  hasCustomData : Bool := false
  customData : BSONObj := []
  hasRoles : Bool := false
  roles : List RoleName := []
  writeConcern : BSONObj := []

/-- The "Parse password" block of `parseCreateOrUpdateUserCommands`. -/
def parseUserPwdBlock (cmdObj : BSONObj) (userName : String)
    (args : CreateOrUpdateUserArgs) : Except Status CreateOrUpdateUserArgs :=
  if hasField cmdObj "pwd" then
    match bsonExtractStringField cmdObj "pwd" with
    | .error st => .error st
    | .ok clearTextPassword =>
      if clearTextPassword = "" then
        .error ⟨ErrorCodes.BadValue, "User passwords must not be empty"⟩
      else
        .ok { args with
          hashedPassword := createPasswordDigest userName clearTextPassword,
          hasHashedPassword := true }
  else .ok args

/-- The "Parse custom data" block of `parseCreateOrUpdateUserCommands`. -/
def parseUserCustomDataBlock (cmdObj : BSONObj)
    (args : CreateOrUpdateUserArgs) : Except Status CreateOrUpdateUserArgs :=
  if hasField cmdObj "customData" then
    match bsonExtractTypedField cmdObj "customData" BSONType.object with
    | .error st => .error st
    | .ok element =>
      .ok { args with customData := element.objFields, hasCustomData := true }
  else .ok args

/-- The "Parse roles" block of `parseCreateOrUpdateUserCommands`. -/
def parseUserRolesBlock (cmdObj : BSONObj) (dbname : String)
    (args : CreateOrUpdateUserArgs) : Except Status CreateOrUpdateUserArgs :=
  if hasField cmdObj "roles" then
    match bsonExtractTypedField cmdObj "roles" BSONType.array with
    | .error st => .error st
    | .ok rolesElement =>
      match parseRoleNamesFromBSONArray rolesElement.arrayElems dbname args.roles with
      | (st, roles) =>
        if st.isOK then .ok { args with roles := roles, hasRoles := true }
        else .error st
  else .ok args

/-- Allowed-field set built by `parseCreateOrUpdateUserCommands`. -/
def createOrUpdateUserValidFieldNames (cmdName : String) : List String :=
  [cmdName, "customData", "pwd", "roles", "writeConcern"]

/-- `parseCreateOrUpdateUserCommands`: allowlist, write concern, user name,
then the optional `pwd`, `customData` and `roles` blocks in that order. -/
def parseCreateOrUpdateUserCommands (cmdObj : BSONObj) (cmdName : String)
    (dbname : String) : Except Status CreateOrUpdateUserArgs :=
  match _checkNoExtraFields cmdObj cmdName (createOrUpdateUserValidFieldNames cmdName) with
  | .error st => .error st
  | .ok _ =>
  match _extractWriteConcern cmdObj with
  | .error st => .error st
  | .ok writeConcern =>
  match bsonExtractStringField cmdObj cmdName with
  | .error st => .error st
  | .ok userName =>
  match parseUserPwdBlock cmdObj userName
      { userName := ⟨userName, dbname⟩, writeConcern := writeConcern } with
  | .error st => .error st
  | .ok args1 =>
  match parseUserCustomDataBlock cmdObj args1 with
  | .error st => .error st
  | .ok args2 => parseUserRolesBlock cmdObj dbname args2

/-- Allowed-field set built by `parseAndValidateDropUserCommand`. -/
def dropUserValidFieldNames : List String := ["dropUser", "writeConcern"]

/-- `parseAndValidateDropUserCommand`: allowlist, then the target user name
string, then the write concern (in that order in the source). -/
def parseAndValidateDropUserCommand (cmdObj : BSONObj) (dbname : String) :
    Except Status (UserName × BSONObj) :=
  match _checkNoExtraFields cmdObj "dropUser" dropUserValidFieldNames with
  | .error st => .error st
  | .ok _ =>
  match bsonExtractStringField cmdObj "dropUser" with
  | .error st => .error st
  | .ok user =>
  match _extractWriteConcern cmdObj with
  | .error st => .error st
  | .ok parsedWriteConcern => .ok (⟨user, dbname⟩, parsedWriteConcern)

/-- Allowed-field set built by `parseAndValidateDropUsersFromDatabaseCommand`. -/
def dropUsersFromDatabaseValidFieldNames : List String :=
  ["dropUsersFromDatabase", "writeConcern"]

/-- `parseAndValidateDropUsersFromDatabaseCommand`: allowlist and write
concern only. -/
def parseAndValidateDropUsersFromDatabaseCommand (cmdObj : BSONObj) :
    Except Status BSONObj :=
  match _checkNoExtraFields cmdObj "dropUsersFromDatabase"
      dropUsersFromDatabaseValidFieldNames with
  | .error st => .error st
  | .ok _ =>
  match _extractWriteConcern cmdObj with
  | .error st => .error st
  | .ok parsedWriteConcern => .ok parsedWriteConcern

/-- `UsersInfoArgs`; `allForDB`, `showPrivileges` and `showCredentials`
start out `false` (modelled from the spec: defaults are false). -/
structure UsersInfoArgs where
  userNames : List UserName := []
  allForDB : Bool := false
  showPrivileges : Bool := false
  showCredentials : Bool := false
deriving DecidableEq, Repr

/-- Allowed-field set built by `parseUsersInfoCommand` (note: no
`writeConcern`). -/
def usersInfoValidFieldNames : List String :=
  ["usersInfo", "showPrivileges", "showCredentials"]

/-- The three-way selector dispatch of `parseUsersInfoCommand`
(`numberInt() == 1` / array / single element), writing into the output
bundle. -/
def usersInfoSelectorStep (cmdObj : BSONObj) (dbname : String) :
    Except Status UsersInfoArgs :=
  if elemNumberInt (getField cmdObj "usersInfo") = 1 then
    .ok { allForDB := true }
  else if elemType (getField cmdObj "usersInfo") = BSONType.array then
    match _parseUserNamesFromBSONArray
        ((getField cmdObj "usersInfo").getD BSONValue.null).arrayElems dbname [] with
    | (st, userNames) =>
      if st.isOK then .ok { userNames := userNames } else .error st
  else
    match _parseNameFromBSONElement UserName.mk (getField cmdObj "usersInfo")
        dbname USER_NAME_FIELD_NAME USER_SOURCE_FIELD_NAME with
    | .error st => .error st
    | .ok name => .ok { userNames := [name] }

/-- `parseUsersInfoCommand`: allowlist, then the three-way selector
dispatch, then the two defaulted boolean fields. -/
def parseUsersInfoCommand (cmdObj : BSONObj) (dbname : String) :
    Except Status UsersInfoArgs :=
  match _checkNoExtraFields cmdObj "usersInfo" usersInfoValidFieldNames with
  | .error st => .error st
  | .ok _ =>
  match usersInfoSelectorStep cmdObj dbname with
  | .error st => .error st
  | .ok args =>
  match bsonExtractBooleanFieldWithDefault cmdObj "showPrivileges" false with
  | .error st => .error st
  | .ok showPrivileges =>
  match bsonExtractBooleanFieldWithDefault cmdObj "showCredentials" false with
  | .error st => .error st
  | .ok showCredentials =>
    .ok { args with showPrivileges := showPrivileges, showCredentials := showCredentials }

/-- Allowed-field set built by `parseRolesInfoCommand` (note: no
`writeConcern`). -/
def rolesInfoValidFieldNames : List String := ["rolesInfo"]

/-- `parseRolesInfoCommand`: allowlist, then the two-way selector dispatch
(array / single element). -/
def parseRolesInfoCommand (cmdObj : BSONObj) (dbname : String) :
    Except Status (List RoleName) :=
  match _checkNoExtraFields cmdObj "rolesInfo" rolesInfoValidFieldNames with
  | .error st => .error st
  | .ok _ =>
  if elemType (getField cmdObj "rolesInfo") = BSONType.array then
    match parseRoleNamesFromBSONArray
        ((getField cmdObj "rolesInfo").getD BSONValue.null).arrayElems dbname [] with
    | (st, parsedRoleNames) =>
      if st.isOK then .ok parsedRoleNames else .error st
  else
    match _parseNameFromBSONElement RoleName.mk (getField cmdObj "rolesInfo")
        dbname ROLE_NAME_FIELD_NAME ROLE_SOURCE_FIELD_NAME with
    | .error st => .error st
    | .ok name => .ok [name]

/-- `parseAndValidatePrivilegeArray`.  The privilege grammar is an external
collaborator (spec §4.4), so the three per-entry steps — `parseBSON`, the
`isValid` semantic check and `parsedPrivilegeToPrivilege` — are parameters;
each returns a message that the parser wraps in `FailedToParse`.  As with
the name arrays, `parsedPrivileges` is the current contents of the caller's
output vector and the second result component its final contents. -/
def parseAndValidatePrivilegeArray {ParsedPrivilege Privilege : Type}
    (parseBSON : BSONObj → Except String ParsedPrivilege)
    (isValid : ParsedPrivilege → Except String Unit)
    (parsedPrivilegeToPrivilege : ParsedPrivilege → Except String Privilege)
    (privileges : List BSONValue) (parsedPrivileges : List Privilege) :
    Status × List Privilege :=
  match privileges with
  | [] => (statusOK, parsedPrivileges)
  | element :: rest =>
    if element.type ≠ BSONType.object then
      (⟨ErrorCodes.FailedToParse, "Elements in privilege arrays must be objects"⟩,
        parsedPrivileges)
    else
      match parseBSON element.objFields with
      | .error errmsg => (⟨ErrorCodes.FailedToParse, errmsg⟩, parsedPrivileges)
      | .ok parsedPrivilege =>
        match isValid parsedPrivilege with
        | .error errmsg => (⟨ErrorCodes.FailedToParse, errmsg⟩, parsedPrivileges)
        | .ok _ =>
          match parsedPrivilegeToPrivilege parsedPrivilege with
          | .error errmsg => (⟨ErrorCodes.FailedToParse, errmsg⟩, parsedPrivileges)
          | .ok privilege =>
            parseAndValidatePrivilegeArray parseBSON isValid
              parsedPrivilegeToPrivilege rest (parsedPrivileges ++ [privilege])

/-- `CreateOrUpdateRoleArgs`, generic over the collaborator-defined
`Privilege` type; the presence flags start out `false` (modelled from the
spec: optional fields are flagged by presence booleans). -/
structure CreateOrUpdateRoleArgs (Privilege : Type) where
  roleName : RoleName := ⟨"", ""⟩
  hasPrivileges : Bool := false
  privileges : List Privilege := []
  hasRoles : Bool := false
  roles : List RoleName := []
  writeConcern : BSONObj := []

/-- Allowed-field set built by `parseCreateOrUpdateRoleCommands`. -/
def createOrUpdateRoleValidFieldNames (cmdName : String) : List String :=
  [cmdName, "privileges", "roles", "writeConcern"]

/-- `parseCreateOrUpdateRoleCommands`: allowlist, write concern, role name,
then the optional `privileges` and `roles` blocks in that order. -/
def parseCreateOrUpdateRoleCommands {ParsedPrivilege Privilege : Type}
    (parseBSON : BSONObj → Except String ParsedPrivilege)
    (isValid : ParsedPrivilege → Except String Unit)
    (parsedPrivilegeToPrivilege : ParsedPrivilege → Except String Privilege)
    (cmdObj : BSONObj) (cmdName : String) (dbname : String) :
    Except Status (CreateOrUpdateRoleArgs Privilege) :=
  match _checkNoExtraFields cmdObj cmdName (createOrUpdateRoleValidFieldNames cmdName) with
  | .error st => .error st
  | .ok _ =>
  match _extractWriteConcern cmdObj with
  | .error st => .error st
  | .ok writeConcern =>
  match bsonExtractStringField cmdObj cmdName with
  | .error st => .error st
  | .ok roleName =>
  let args0 : CreateOrUpdateRoleArgs Privilege :=
    { roleName := ⟨roleName, dbname⟩, writeConcern := writeConcern }
  let afterPrivileges : Except Status (CreateOrUpdateRoleArgs Privilege) :=
    if hasField cmdObj "privileges" then
      match bsonExtractTypedField cmdObj "privileges" BSONType.array with
      | .error st => .error st
      | .ok privilegesElement =>
        match parseAndValidatePrivilegeArray parseBSON isValid
            parsedPrivilegeToPrivilege privilegesElement.arrayElems args0.privileges with
        | (st, privileges) =>
          if st.isOK then .ok { args0 with privileges := privileges, hasPrivileges := true }
          else .error st
    else .ok args0
  match afterPrivileges with
  | .error st => .error st
  | .ok args1 =>
    if hasField cmdObj "roles" then
      match bsonExtractTypedField cmdObj "roles" BSONType.array with
      | .error st => .error st
      | .ok rolesElement =>
        match parseRoleNamesFromBSONArray rolesElement.arrayElems dbname args1.roles with
        | (st, roles) =>
          if st.isOK then .ok { args1 with roles := roles, hasRoles := true }
          else .error st
    else .ok args1

/-- Allowed-field set built by
`parseAndValidateRolePrivilegeManipulationCommands`. -/
def rolePrivilegeManipulationValidFieldNames (cmdName : String) : List String :=
  [cmdName, "privileges", "writeConcern"]

/-- `parseAndValidateRolePrivilegeManipulationCommands` (grant/revoke
privileges to/from a role): allowlist, write concern, role name, required
`privileges` array run through `parseAndValidatePrivilegeArray` — and then
success, with no non-emptiness check on the parsed privileges. -/
def parseAndValidateRolePrivilegeManipulationCommands {ParsedPrivilege Privilege : Type}
    (parseBSON : BSONObj → Except String ParsedPrivilege)
    (isValid : ParsedPrivilege → Except String Unit)
    (parsedPrivilegeToPrivilege : ParsedPrivilege → Except String Privilege)
    (cmdObj : BSONObj) (cmdName : String) (dbname : String) :
    Except Status (RoleName × List Privilege × BSONObj) :=
  match _checkNoExtraFields cmdObj cmdName
      (rolePrivilegeManipulationValidFieldNames cmdName) with
  | .error st => .error st
  | .ok _ =>
  match _extractWriteConcern cmdObj with
  | .error st => .error st
  | .ok parsedWriteConcern =>
  match bsonExtractStringField cmdObj cmdName with
  | .error st => .error st
  | .ok roleName =>
  match bsonExtractTypedField cmdObj "privileges" BSONType.array with
  | .error st => .error st
  | .ok privilegesElement =>
  match parseAndValidatePrivilegeArray parseBSON isValid
      parsedPrivilegeToPrivilege privilegesElement.arrayElems [] with
  | (st, parsedPrivileges) =>
    if st.isOK then .ok (⟨roleName, dbname⟩, parsedPrivileges, parsedWriteConcern)
    else .error st

/-- Allowed-field set built by `parseDropRoleCommand`. -/
def dropRoleValidFieldNames : List String := ["dropRole", "writeConcern"]

/-- `parseDropRoleCommand`: allowlist, then the target role name string,
then the write concern (in that order in the source). -/
def parseDropRoleCommand (cmdObj : BSONObj) (dbname : String) :
    Except Status (RoleName × BSONObj) :=
  match _checkNoExtraFields cmdObj "dropRole" dropRoleValidFieldNames with
  | .error st => .error st
  | .ok _ =>
  match bsonExtractStringField cmdObj "dropRole" with
  | .error st => .error st
  | .ok user =>
  match _extractWriteConcern cmdObj with
  | .error st => .error st
  | .ok parsedWriteConcern => .ok (⟨user, dbname⟩, parsedWriteConcern)

/-- Allowed-field set built by `parseDropRolesFromDatabaseCommand`. -/
def dropRolesFromDatabaseValidFieldNames : List String :=
  ["dropRolesFromDatabase", "writeConcern"]

/-- `parseDropRolesFromDatabaseCommand`: allowlist and write concern only. -/
def parseDropRolesFromDatabaseCommand (cmdObj : BSONObj) :
    Except Status BSONObj :=
  match _checkNoExtraFields cmdObj "dropRolesFromDatabase"
      dropRolesFromDatabaseValidFieldNames with
  | .error st => .error st
  | .ok _ =>
  match _extractWriteConcern cmdObj with
  | .error st => .error st
  | .ok parsedWriteConcern => .ok parsedWriteConcern

/-- Spec-side principal-name array resolution, following §4.3's words: each
element is resolved in order, the first failure propagates, and no partial
output is produced on failure.  Used to state the refinement between the
spec and the accumulating loop `_parseNamesFromBSONArray`. -/
def resolveNamesSpec {Name : Type} (mkName : String → String → Name)
    (elems : List BSONValue) (dbname nameFieldName sourceFieldName : String) :
    Except Status (List Name) :=
  match elems with
  | [] => .ok []
  | e :: rest =>
    match _parseNameFromBSONElement mkName (some e) dbname nameFieldName sourceFieldName with
    | .error st => .error st
    | .ok n =>
      match resolveNamesSpec mkName rest dbname nameFieldName sourceFieldName with
      | .error st => .error st
      | .ok ns => .ok (n :: ns)

/-! Helper lemmas shared by the claim theorems. -/

theorem getField_string_extract {o : BSONObj} {f s : String}
    (h : getField o f = some (BSONValue.string s)) :
    bsonExtractStringField o f = .ok s := by
  simp [bsonExtractStringField, bsonExtractTypedField, bsonExtractField, h,
    BSONValue.type, BSONValue.strValue]

theorem bsonExtractStringField_error_shape {o : BSONObj} {f : String} {st : Status}
    (h : bsonExtractStringField o f = .error st) :
    st = ⟨ErrorCodes.NoSuchKey, "Missing expected field \"" ++ f ++ "\""⟩ ∨
    st = ⟨ErrorCodes.TypeMismatch, "\"" ++ f ++ "\" had the wrong type"⟩ := by
  rcases hg : getField o f with _ | v
  · simp [bsonExtractStringField, bsonExtractTypedField, bsonExtractField, hg] at h
    exact Or.inl h.symm
  · by_cases ht : v.type = BSONType.string
    · simp [bsonExtractStringField, bsonExtractTypedField, bsonExtractField, hg, ht] at h
    · simp [bsonExtractStringField, bsonExtractTypedField, bsonExtractField, hg, ht] at h
      exact Or.inr h.symm

theorem checkNoExtraFields_ok_of_all (cmdObj : BSONObj) (cmdName : String)
    (validFieldNames : List String)
    (h : ∀ kv ∈ cmdObj, validFieldNames.contains kv.1 = true) :
    _checkNoExtraFields cmdObj cmdName validFieldNames = .ok () := by
  induction cmdObj with
  | nil => rfl
  | cons kv rest ih =>
    have hc : validFieldNames.contains kv.1 = true := h kv (List.mem_cons_self kv rest)
    simp only [_checkNoExtraFields, hc, if_true]
    exact ih (fun x hx => h x (List.mem_cons_of_mem kv hx))

theorem checkNoExtraFields_error_of_exists (cmdObj : BSONObj) (cmdName : String)
    (validFieldNames : List String)
    (h : ∃ kv ∈ cmdObj, validFieldNames.contains kv.1 = false) :
    ∃ kv ∈ cmdObj, validFieldNames.contains kv.1 = false ∧
      _checkNoExtraFields cmdObj cmdName validFieldNames =
        .error ⟨ErrorCodes.BadValue,
          "\"" ++ kv.1 ++ "\" is not a valid argument to " ++ cmdName⟩ := by
  induction cmdObj with
  | nil => simp at h
  | cons kv rest ih =>
    by_cases hc : validFieldNames.contains kv.1 = true
    · have h' : ∃ x ∈ rest, validFieldNames.contains x.1 = false := by
        rcases h with ⟨x, hx, hxf⟩
        rcases List.mem_cons.mp hx with hx1 | hx2
        · rw [hx1] at hxf; rw [hxf] at hc; exact absurd hc (by simp)
        · exact ⟨x, hx2, hxf⟩
      rcases ih h' with ⟨x, hx, hxf, heq⟩
      refine ⟨x, List.mem_cons_of_mem kv hx, hxf, ?_⟩
      simpa only [_checkNoExtraFields, hc, if_true] using heq
    · have hcf : validFieldNames.contains kv.1 = false := by
        simpa using hc
      exact ⟨kv, List.mem_cons_self kv rest, hcf,
        by simp only [_checkNoExtraFields, hcf, Bool.false_eq_true, if_false]⟩

/-- C5: for every command document and allowed-field set, if the document
contains a field whose name is not in the allowed set, the allowlist
validator fails with a `BadValue` error whose message names that offending
field and the command name; if every field is allowed it succeeds; and when
it fails, the command parsers return exactly its error, invoking no later
component (shown for the parsers built on the write-concern extractor, the
name resolver and the privilege parser). -/
theorem allowlist_validator_contract :
    (∀ (cmdObj : BSONObj) (cmdName : String) (validFieldNames : List String),
      (∀ kv ∈ cmdObj, validFieldNames.contains kv.1 = true) →
        _checkNoExtraFields cmdObj cmdName validFieldNames = .ok ()) ∧
    (∀ (cmdObj : BSONObj) (cmdName : String) (validFieldNames : List String),
      (∃ kv ∈ cmdObj, validFieldNames.contains kv.1 = false) →
        ∃ kv ∈ cmdObj, validFieldNames.contains kv.1 = false ∧
          _checkNoExtraFields cmdObj cmdName validFieldNames =
            .error ⟨ErrorCodes.BadValue,
              "\"" ++ kv.1 ++ "\" is not a valid argument to " ++ cmdName⟩) ∧
    (∀ (cmdObj : BSONObj) (dbname : String) (st : Status),
      _checkNoExtraFields cmdObj "usersInfo" usersInfoValidFieldNames = .error st →
        parseUsersInfoCommand cmdObj dbname = .error st) ∧
    (∀ (cmdObj : BSONObj) (dbname : String) (st : Status),
      _checkNoExtraFields cmdObj "dropUser" dropUserValidFieldNames = .error st →
        parseAndValidateDropUserCommand cmdObj dbname = .error st) ∧
    (∀ {ParsedPrivilege Privilege : Type}
      (parseBSON : BSONObj → Except String ParsedPrivilege)
      (isValid : ParsedPrivilege → Except String Unit)
      (conv : ParsedPrivilege → Except String Privilege)
      (cmdObj : BSONObj) (cmdName dbname : String) (st : Status),
      _checkNoExtraFields cmdObj cmdName
          (rolePrivilegeManipulationValidFieldNames cmdName) = .error st →
        parseAndValidateRolePrivilegeManipulationCommands parseBSON isValid conv
          cmdObj cmdName dbname = .error st) := by
  refine ⟨checkNoExtraFields_ok_of_all, checkNoExtraFields_error_of_exists, ?_, ?_, ?_⟩
  · intro cmdObj dbname st h
    simp [parseUsersInfoCommand, h]
  · intro cmdObj dbname st h
    simp [parseAndValidateDropUserCommand, h]
  · intro PP Priv parseBSON isValid conv cmdObj cmdName dbname st h
    simp [parseAndValidateRolePrivilegeManipulationCommands, h]

/-- Witness for C5 at concrete inputs. -/
theorem allowlist_validator_contract_witness :
    (_checkNoExtraFields [("usersInfo", BSONValue.string "a")] "usersInfo"
      usersInfoValidFieldNames = .ok ()) ∧
    (∃ kv ∈ ([("badField", BSONValue.numInt 1)] : BSONObj),
      usersInfoValidFieldNames.contains kv.1 = false ∧
        _checkNoExtraFields [("badField", BSONValue.numInt 1)] "usersInfo"
          usersInfoValidFieldNames =
          .error ⟨ErrorCodes.BadValue,
            "\"" ++ kv.1 ++ "\" is not a valid argument to " ++ "usersInfo"⟩) ∧
    (parseUsersInfoCommand [("badField", BSONValue.numInt 1)] "test" =
      .error ⟨ErrorCodes.BadValue, "\"badField\" is not a valid argument to usersInfo"⟩) ∧
    (parseAndValidateDropUserCommand [("badField", BSONValue.numInt 1)] "test" =
      .error ⟨ErrorCodes.BadValue, "\"badField\" is not a valid argument to dropUser"⟩) ∧
    (parseAndValidateRolePrivilegeManipulationCommands
      (fun _ => Except.ok ()) (fun _ => Except.ok ()) (fun _ => Except.ok ())
      [("badField", BSONValue.numInt 1)] "grantPrivilegesToRole" "test" =
      .error ⟨ErrorCodes.BadValue,
        "\"badField\" is not a valid argument to grantPrivilegesToRole"⟩) :=
  ⟨allowlist_validator_contract.1 _ _ _ (by decide),
   allowlist_validator_contract.2.1 _ _ _
     ⟨("badField", BSONValue.numInt 1), List.mem_cons_self _ _, by decide⟩,
   allowlist_validator_contract.2.2.1 _ _ _ rfl,
   allowlist_validator_contract.2.2.2.1 _ _ _ rfl,
   allowlist_validator_contract.2.2.2.2 _ _ _ _ _ _ _ rfl⟩

/-- C6: single-element principal-name resolution — a string value resolves
to `(value, defaultNamespace)`; an object value resolves to its name and
source fields exactly when both are present as strings, and otherwise fails
with the extraction error, which names the offending field; any other value
type fails with `BadValue`. -/
theorem parseNameFromBSONElement_contract {Name : Type}
    (mkName : String → String → Name) (dbname nameFieldName sourceFieldName : String) :
    (∀ s, _parseNameFromBSONElement mkName (some (BSONValue.string s))
        dbname nameFieldName sourceFieldName = .ok (mkName s dbname)) ∧
    (∀ (o : BSONObj) (n src : String),
      getField o nameFieldName = some (BSONValue.string n) →
      getField o sourceFieldName = some (BSONValue.string src) →
        _parseNameFromBSONElement mkName (some (BSONValue.object o))
          dbname nameFieldName sourceFieldName = .ok (mkName n src)) ∧
    (∀ (o : BSONObj) (st : Status),
      bsonExtractStringField o nameFieldName = .error st →
        _parseNameFromBSONElement mkName (some (BSONValue.object o))
          dbname nameFieldName sourceFieldName = .error st ∧
          (st = ⟨ErrorCodes.NoSuchKey,
              "Missing expected field \"" ++ nameFieldName ++ "\""⟩ ∨
           st = ⟨ErrorCodes.TypeMismatch,
              "\"" ++ nameFieldName ++ "\" had the wrong type"⟩)) ∧
    (∀ (o : BSONObj) (n : String) (st : Status),
      getField o nameFieldName = some (BSONValue.string n) →
      bsonExtractStringField o sourceFieldName = .error st →
        _parseNameFromBSONElement mkName (some (BSONValue.object o))
          dbname nameFieldName sourceFieldName = .error st ∧
          (st = ⟨ErrorCodes.NoSuchKey,
              "Missing expected field \"" ++ sourceFieldName ++ "\""⟩ ∨
           st = ⟨ErrorCodes.TypeMismatch,
              "\"" ++ sourceFieldName ++ "\" had the wrong type"⟩)) ∧
    (∀ element : BSONElement,
      elemType element ≠ BSONType.string → elemType element ≠ BSONType.object →
        _parseNameFromBSONElement mkName element dbname nameFieldName sourceFieldName =
          .error ⟨ErrorCodes.BadValue,
            "User and role names must be either strings or objects"⟩) := by
  refine ⟨?_, ?_, ?_, ?_, ?_⟩
  · intro s
    simp [_parseNameFromBSONElement, elemType, BSONValue.type, BSONValue.strValue]
  · intro o n src h1 h2
    simp [_parseNameFromBSONElement, elemType, BSONValue.type, BSONValue.objFields,
      getField_string_extract h1, getField_string_extract h2]
  · intro o st h
    refine ⟨?_, bsonExtractStringField_error_shape h⟩
    simp [_parseNameFromBSONElement, elemType, BSONValue.type, BSONValue.objFields, h]
  · intro o n st h1 h2
    refine ⟨?_, bsonExtractStringField_error_shape h2⟩
    simp [_parseNameFromBSONElement, elemType, BSONValue.type, BSONValue.objFields,
      getField_string_extract h1, h2]
  · intro element h1 h2
    simp [_parseNameFromBSONElement, h1, h2]

/-- Witness for C6 at concrete inputs: the examples of spec §8, plus a
missing source field and a non-string name field. -/
theorem parseNameFromBSONElement_contract_witness :
    (_parseNameFromBSONElement UserName.mk (some (BSONValue.string "alice"))
      "admin" "user" "db" = .ok ⟨"alice", "admin"⟩) ∧
    (_parseNameFromBSONElement UserName.mk
      (some (BSONValue.object [("user", BSONValue.string "alice"), ("db", BSONValue.string "test")]))
      "admin" "user" "db" = .ok ⟨"alice", "test"⟩) ∧
    (_parseNameFromBSONElement UserName.mk
      (some (BSONValue.object [("db", BSONValue.string "test")]))
      "admin" "user" "db" =
      .error ⟨ErrorCodes.NoSuchKey, "Missing expected field \"user\""⟩) ∧
    (_parseNameFromBSONElement UserName.mk
      (some (BSONValue.object [("user", BSONValue.string "alice"), ("db", BSONValue.numInt 1)]))
      "admin" "user" "db" =
      .error ⟨ErrorCodes.TypeMismatch, "\"db\" had the wrong type"⟩) ∧
    (_parseNameFromBSONElement UserName.mk (some (BSONValue.numInt 7))
      "admin" "user" "db" =
      .error ⟨ErrorCodes.BadValue, "User and role names must be either strings or objects"⟩) ∧
    (_parseNameFromBSONElement UserName.mk (some BSONValue.null)
      "admin" "user" "db" =
      .error ⟨ErrorCodes.BadValue, "User and role names must be either strings or objects"⟩) :=
  ⟨(parseNameFromBSONElement_contract UserName.mk "admin" "user" "db").1 "alice",
   (parseNameFromBSONElement_contract UserName.mk "admin" "user" "db").2.1 _ "alice" "test" rfl rfl,
   ((parseNameFromBSONElement_contract UserName.mk "admin" "user" "db").2.2.1
     [("db", BSONValue.string "test")]
     ⟨ErrorCodes.NoSuchKey, "Missing expected field \"user\""⟩ rfl).1,
   ((parseNameFromBSONElement_contract UserName.mk "admin" "user" "db").2.2.2.1
     [("user", BSONValue.string "alice"), ("db", BSONValue.numInt 1)] "alice"
     ⟨ErrorCodes.TypeMismatch, "\"db\" had the wrong type"⟩ rfl rfl).1,
   (parseNameFromBSONElement_contract UserName.mk "admin" "user" "db").2.2.2.2
     (some (BSONValue.numInt 7)) (by decide) (by decide),
   (parseNameFromBSONElement_contract UserName.mk "admin" "user" "db").2.2.2.2
     (some BSONValue.null) (by decide) (by decide)⟩

/-- Counterexample to C4 as stated: on `["alice", 5]` the array resolver
stops at the failing second element and returns its failure, but the
caller's output vector is not left empty — the already-resolved
`("alice","admin")` has been committed to it. -/
theorem parseNamesFromBSONArray_commits_partial_results :
    _parseNamesFromBSONArray RoleName.mk
      [BSONValue.string "alice", BSONValue.numInt 5] "admin" "role" "db" [] =
      (⟨ErrorCodes.BadValue, "User and role names must be either strings or objects"⟩,
       [⟨"alice", "admin"⟩]) :=
  rfl

/-- C4 (amended): array-form resolution resolves the elements in input
order — appending them to the output vector as they resolve — and on the
first failing element stops, returns that element's failure, and leaves
the names resolved before the failure committed in the output vector.
`resolveNamesSpec` is the spec-side element-wise resolution used to state
the order. -/
theorem parseNamesFromBSONArray_order_and_first_failure {Name : Type}
    (mkName : String → String → Name) (dbname nameFieldName sourceFieldName : String) :
    (∀ (elems : List BSONValue) (acc names : List Name),
      resolveNamesSpec mkName elems dbname nameFieldName sourceFieldName = .ok names →
        _parseNamesFromBSONArray mkName elems dbname nameFieldName sourceFieldName acc =
          (statusOK, acc ++ names)) ∧
    (∀ (pre : List BSONValue) (e : BSONValue) (post : List BSONValue)
        (acc names : List Name) (st : Status),
      resolveNamesSpec mkName pre dbname nameFieldName sourceFieldName = .ok names →
      _parseNameFromBSONElement mkName (some e) dbname nameFieldName sourceFieldName =
        .error st →
        _parseNamesFromBSONArray mkName (pre ++ e :: post)
          dbname nameFieldName sourceFieldName acc = (st, acc ++ names)) := by
  constructor
  · intro elems
    induction elems with
    | nil =>
      intro acc names h
      simp only [resolveNamesSpec, Except.ok.injEq] at h
      subst h
      simp [_parseNamesFromBSONArray]
    | cons e rest ih =>
      intro acc names h
      cases hp : _parseNameFromBSONElement mkName (some e)
          dbname nameFieldName sourceFieldName with
      | error st =>
        rw [resolveNamesSpec, hp] at h
        exact absurd h (by simp)
      | ok n =>
        rw [resolveNamesSpec, hp] at h
        cases hr : resolveNamesSpec mkName rest dbname nameFieldName sourceFieldName with
        | error st => rw [hr] at h; exact absurd h (by simp)
        | ok ns =>
          rw [hr] at h
          simp only [Except.ok.injEq] at h
          subst h
          simp only [_parseNamesFromBSONArray, hp]
          rw [ih (acc ++ [n]) ns hr]
          simp
  · intro pre
    induction pre with
    | nil =>
      intro e post acc names st hok he
      simp only [resolveNamesSpec, Except.ok.injEq] at hok
      subst hok
      simp [_parseNamesFromBSONArray, he]
    | cons p pre' ih =>
      intro e post acc names st hok he
      cases hp : _parseNameFromBSONElement mkName (some p)
          dbname nameFieldName sourceFieldName with
      | error st' =>
        rw [resolveNamesSpec, hp] at hok
        exact absurd hok (by simp)
      | ok n =>
        rw [resolveNamesSpec, hp] at hok
        cases hr : resolveNamesSpec mkName pre' dbname nameFieldName sourceFieldName with
        | error st' => rw [hr] at hok; exact absurd hok (by simp)
        | ok ns =>
          rw [hr] at hok
          simp only [Except.ok.injEq] at hok
          subst hok
          simp only [List.cons_append, _parseNamesFromBSONArray, hp, List.append_eq]
          rw [ih e post (acc ++ [n]) ns st hr he]
          simp

/-- Witness for C4's amended theorem: the spec §8 example resolves in
order, and a failing middle element returns its failure with the resolved
prefix committed. -/
theorem parseNamesFromBSONArray_order_witness :
    (_parseNamesFromBSONArray UserName.mk
      [BSONValue.string "alice",
       BSONValue.object [("user", BSONValue.string "bob"), ("db", BSONValue.string "test")]]
      "admin" "user" "db" [] =
      (statusOK, [⟨"alice", "admin"⟩, ⟨"bob", "test"⟩])) ∧
    (_parseNamesFromBSONArray UserName.mk
      [BSONValue.string "alice", BSONValue.numInt 5, BSONValue.string "carol"]
      "admin" "user" "db" [] =
      (⟨ErrorCodes.BadValue, "User and role names must be either strings or objects"⟩,
       [⟨"alice", "admin"⟩])) := by
  constructor
  · have h := (parseNamesFromBSONArray_order_and_first_failure
      UserName.mk "admin" "user" "db").1
      [BSONValue.string "alice",
       BSONValue.object [("user", BSONValue.string "bob"), ("db", BSONValue.string "test")]]
      [] [⟨"alice", "admin"⟩, ⟨"bob", "test"⟩] rfl
    simpa using h
  · have h := (parseNamesFromBSONArray_order_and_first_failure
      UserName.mk "admin" "user" "db").2
      [BSONValue.string "alice"] (BSONValue.numInt 5) [BSONValue.string "carol"]
      [] [⟨"alice", "admin"⟩]
      ⟨ErrorCodes.BadValue, "User and role names must be either strings or objects"⟩
      rfl rfl
    simpa using h

/-- C7: a role-possession command document that passes the allowlist, the
write-concern extraction and the target-name extraction fails with
`BadValue` when its roles field is present as an empty array (non-empty
array required), and with `NoSuchKey` when the roles field is absent. -/
theorem rolePossession_requires_nonempty_roles
    (cmdObj : BSONObj) (cmdName rolesFieldName dbname : String)
    (wc : BSONObj) (nm : String)
    (h1 : _checkNoExtraFields cmdObj cmdName
      (rolePossessionValidFieldNames cmdName rolesFieldName) = .ok ())
    (h2 : _extractWriteConcern cmdObj = .ok wc)
    (h3 : bsonExtractStringField cmdObj cmdName = .ok nm) :
    (getField cmdObj rolesFieldName = some (BSONValue.array []) →
      parseRolePossessionManipulationCommands cmdObj cmdName rolesFieldName dbname =
        .error ⟨ErrorCodes.BadValue,
          cmdName ++ " command requires a non-empty \"" ++ rolesFieldName ++ "\" array"⟩) ∧
    (getField cmdObj rolesFieldName = none →
      parseRolePossessionManipulationCommands cmdObj cmdName rolesFieldName dbname =
        .error ⟨ErrorCodes.NoSuchKey,
          "Missing expected field \"" ++ rolesFieldName ++ "\""⟩) := by
  constructor
  · intro h4
    have htyped : bsonExtractTypedField cmdObj rolesFieldName BSONType.array =
        .ok (BSONValue.array []) := by
      simp [bsonExtractTypedField, bsonExtractField, h4, BSONValue.type]
    simp [parseRolePossessionManipulationCommands, h1, h2, h3, htyped,
      BSONValue.arrayElems, parseRoleNamesFromBSONArray, _parseNamesFromBSONArray,
      statusOK, Status.isOK]
  · intro h4
    have htyped : bsonExtractTypedField cmdObj rolesFieldName BSONType.array =
        .error ⟨ErrorCodes.NoSuchKey,
          "Missing expected field \"" ++ rolesFieldName ++ "\""⟩ := by
      simp [bsonExtractTypedField, bsonExtractField, h4]
    simp [parseRolePossessionManipulationCommands, h1, h2, h3, htyped]

/-- Witness for C7 at concrete inputs: a grant-roles document with
`roles: []` and one omitting `roles`. -/
theorem rolePossession_requires_nonempty_roles_witness :
    (parseRolePossessionManipulationCommands
      [("grantRolesToUser", BSONValue.string "alice"), ("roles", BSONValue.array [])]
      "grantRolesToUser" "roles" "test" =
      .error ⟨ErrorCodes.BadValue,
        "grantRolesToUser command requires a non-empty \"roles\" array"⟩) ∧
    (parseRolePossessionManipulationCommands
      [("grantRolesToUser", BSONValue.string "alice")]
      "grantRolesToUser" "roles" "test" =
      .error ⟨ErrorCodes.NoSuchKey, "Missing expected field \"roles\""⟩) :=
  ⟨(rolePossession_requires_nonempty_roles
      [("grantRolesToUser", BSONValue.string "alice"), ("roles", BSONValue.array [])]
      "grantRolesToUser" "roles" "test" [] "alice" rfl rfl rfl).1 rfl,
   (rolePossession_requires_nonempty_roles
      [("grantRolesToUser", BSONValue.string "alice")]
      "grantRolesToUser" "roles" "test" [] "alice" rfl rfl rfl).2 rfl⟩

theorem parseUserCustomDataBlock_preserves {cmdObj : BSONObj}
    {args args' : CreateOrUpdateUserArgs}
    (h : parseUserCustomDataBlock cmdObj args = .ok args') :
    args'.hasHashedPassword = args.hasHashedPassword ∧
    args'.hashedPassword = args.hashedPassword := by
  cases hf : hasField cmdObj "customData" with
  | false =>
    simp only [parseUserCustomDataBlock, hf, Bool.false_eq_true, if_false,
      Except.ok.injEq] at h
    subst h; exact ⟨rfl, rfl⟩
  | true =>
    simp only [parseUserCustomDataBlock, hf, if_true] at h
    cases he : bsonExtractTypedField cmdObj "customData" BSONType.object with
    | error st => rw [he] at h; exact absurd h (by simp)
    | ok v =>
      rw [he] at h
      simp only [Except.ok.injEq] at h
      subst h; exact ⟨rfl, rfl⟩

theorem parseUserRolesBlock_preserves {cmdObj : BSONObj} {dbname : String}
    {args args' : CreateOrUpdateUserArgs}
    (h : parseUserRolesBlock cmdObj dbname args = .ok args') :
    args'.hasHashedPassword = args.hasHashedPassword ∧
    args'.hashedPassword = args.hashedPassword := by
  cases hf : hasField cmdObj "roles" with
  | false =>
    simp only [parseUserRolesBlock, hf, Bool.false_eq_true, if_false,
      Except.ok.injEq] at h
    subst h; exact ⟨rfl, rfl⟩
  | true =>
    simp only [parseUserRolesBlock, hf, if_true] at h
    cases he : bsonExtractTypedField cmdObj "roles" BSONType.array with
    | error st => simp [he] at h
    | ok v =>
      simp only [he] at h
      rcases hpr : parseRoleNamesFromBSONArray v.arrayElems dbname args.roles with ⟨st, roles⟩
      simp only [hpr] at h
      cases hok : st.isOK with
      | true =>
        simp only [hok, if_true, Except.ok.injEq] at h
        subst h; exact ⟨rfl, rfl⟩
      | false =>
        simp only [hok, Bool.false_eq_true, if_false] at h
        exact absurd h (by simp)

/-- C8: create/update-user parsing — a present, empty `pwd` fails with
`BadValue` before any role processing (the conclusion holds for every
document, whatever its roles field holds); a present, non-empty `pwd`
yields `hasHashedPassword = true` with the stored password equal to the
digest of the user's local name and the clear-text password; an absent
`pwd` leaves `hasHashedPassword = false`; and
`createUser: "alice", pwd: "s3cret"` succeeds with `hasHashedPassword=true`
and `hasRoles=false`. -/
theorem createOrUpdateUser_password_handling
    (cmdObj : BSONObj) (cmdName dbname : String) (wc : BSONObj) (localName : String)
    (h1 : _checkNoExtraFields cmdObj cmdName
      (createOrUpdateUserValidFieldNames cmdName) = .ok ())
    (h2 : _extractWriteConcern cmdObj = .ok wc)
    (h3 : bsonExtractStringField cmdObj cmdName = .ok localName) :
    (getField cmdObj "pwd" = some (BSONValue.string "") →
      parseCreateOrUpdateUserCommands cmdObj cmdName dbname =
        .error ⟨ErrorCodes.BadValue, "User passwords must not be empty"⟩) ∧
    (∀ (pwd : String) (args : CreateOrUpdateUserArgs),
      getField cmdObj "pwd" = some (BSONValue.string pwd) → pwd ≠ "" →
      parseCreateOrUpdateUserCommands cmdObj cmdName dbname = .ok args →
        args.hasHashedPassword = true ∧
        args.hashedPassword = createPasswordDigest localName pwd) ∧
    (∀ args : CreateOrUpdateUserArgs,
      getField cmdObj "pwd" = none →
      parseCreateOrUpdateUserCommands cmdObj cmdName dbname = .ok args →
        args.hasHashedPassword = false) ∧
    (parseCreateOrUpdateUserCommands
        [("createUser", BSONValue.string "alice"), ("pwd", BSONValue.string "s3cret")]
        "createUser" "test" =
      .ok { userName := ⟨"alice", "test"⟩, hasHashedPassword := true,
            hashedPassword := createPasswordDigest "alice" "s3cret" }) := by
  refine ⟨?_, ?_, ?_, rfl⟩
  · intro h4
    simp [parseCreateOrUpdateUserCommands, h1, h2, h3, parseUserPwdBlock, hasField, h4,
      getField_string_extract h4]
  · intro pwd args h4 hne hparse
    simp only [parseCreateOrUpdateUserCommands, h1, h2, h3] at hparse
    simp only [parseUserPwdBlock, hasField, h4, Option.isSome_some, if_true,
      getField_string_extract h4, hne, if_false] at hparse
    rcases hcd : parseUserCustomDataBlock cmdObj
        { userName := ⟨localName, dbname⟩, writeConcern := wc,
          hashedPassword := createPasswordDigest localName pwd,
          hasHashedPassword := true } with _ | args2
    · simp [hcd] at hparse
    · simp only [hcd] at hparse
      have hp1 := parseUserCustomDataBlock_preserves hcd
      have hp2 := parseUserRolesBlock_preserves hparse
      exact ⟨by rw [hp2.1, hp1.1], by rw [hp2.2, hp1.2]⟩
  · intro args h4 hparse
    simp only [parseCreateOrUpdateUserCommands, h1, h2, h3] at hparse
    simp only [parseUserPwdBlock, hasField, h4, Option.isSome_none,
      Bool.false_eq_true, if_false] at hparse
    rcases hcd : parseUserCustomDataBlock cmdObj
        { userName := ⟨localName, dbname⟩, writeConcern := wc } with _ | args2
    · simp [hcd] at hparse
    · simp only [hcd] at hparse
      have hp1 := parseUserCustomDataBlock_preserves hcd
      have hp2 := parseUserRolesBlock_preserves hparse
      rw [hp2.1, hp1.1]

/-- Witness for C8 at concrete inputs: the two spec §8 create-user
documents (empty password with `roles: []`, and a non-empty password). -/
theorem createOrUpdateUser_password_handling_witness :
    (parseCreateOrUpdateUserCommands
        [("createUser", BSONValue.string "alice"), ("pwd", BSONValue.string ""),
         ("roles", BSONValue.array [])] "createUser" "test" =
      .error ⟨ErrorCodes.BadValue, "User passwords must not be empty"⟩) ∧
    (parseCreateOrUpdateUserCommands
        [("createUser", BSONValue.string "alice"), ("pwd", BSONValue.string "s3cret")]
        "createUser" "test" =
      .ok { userName := ⟨"alice", "test"⟩, hasHashedPassword := true,
            hashedPassword := createPasswordDigest "alice" "s3cret" }) ∧
    ({ userName := ⟨"alice", "test"⟩, hasHashedPassword := true,
       hashedPassword := createPasswordDigest "alice" "s3cret" :
         CreateOrUpdateUserArgs }.hasHashedPassword = true ∧
     { userName := ⟨"alice", "test"⟩, hasHashedPassword := true,
       hashedPassword := createPasswordDigest "alice" "s3cret" :
         CreateOrUpdateUserArgs }.hashedPassword = createPasswordDigest "alice" "s3cret") :=
  ⟨(createOrUpdateUser_password_handling
      [("createUser", BSONValue.string "alice"), ("pwd", BSONValue.string ""),
       ("roles", BSONValue.array [])] "createUser" "test" [] "alice" rfl rfl rfl).1 rfl,
   (createOrUpdateUser_password_handling
      [("createUser", BSONValue.string "alice"), ("pwd", BSONValue.string "s3cret")]
      "createUser" "test" [] "alice" rfl rfl rfl).2.2.2,
   (createOrUpdateUser_password_handling
      [("createUser", BSONValue.string "alice"), ("pwd", BSONValue.string "s3cret")]
      "createUser" "test" [] "alice" rfl rfl rfl).2.1 "s3cret" _ rfl (by decide)
     ((createOrUpdateUser_password_handling
        [("createUser", BSONValue.string "alice"), ("pwd", BSONValue.string "s3cret")]
        "createUser" "test" [] "alice" rfl rfl rfl).2.2.2)⟩

/-- C9: for a usersInfo document that passes allowlist validation (with the
two boolean options absent, so they default): a selector value whose
`numberInt()` is `1` yields `allForDB = true`; an array value yields
`userNames` equal to the element-wise resolution of the array; any other
value is resolved as a single principal name with the invocation namespace
as default source; and `showPrivileges` / `showCredentials` are `false` in
every successful result.  Includes the three concrete spec §8 documents. -/
theorem usersInfo_selector_dispatch
    (cmdObj : BSONObj) (dbname : String)
    (h1 : _checkNoExtraFields cmdObj "usersInfo" usersInfoValidFieldNames = .ok ())
    (hsp : getField cmdObj "showPrivileges" = none)
    (hsc : getField cmdObj "showCredentials" = none) :
    (elemNumberInt (getField cmdObj "usersInfo") = 1 →
      parseUsersInfoCommand cmdObj dbname = .ok { allForDB := true }) ∧
    (∀ (elems : List BSONValue) (names : List UserName),
      getField cmdObj "usersInfo" = some (BSONValue.array elems) →
      _parseUserNamesFromBSONArray elems dbname [] = (statusOK, names) →
        parseUsersInfoCommand cmdObj dbname = .ok { userNames := names }) ∧
    (∀ (v : BSONValue) (n : UserName),
      getField cmdObj "usersInfo" = some v →
      v.numberInt ≠ 1 → v.type ≠ BSONType.array →
      _parseNameFromBSONElement UserName.mk (some v) dbname
        USER_NAME_FIELD_NAME USER_SOURCE_FIELD_NAME = .ok n →
        parseUsersInfoCommand cmdObj dbname = .ok { userNames := [n] }) ∧
    (∀ args : UsersInfoArgs, parseUsersInfoCommand cmdObj dbname = .ok args →
      args.showPrivileges = false ∧ args.showCredentials = false) ∧
    (parseUsersInfoCommand [("usersInfo", BSONValue.numInt 1)] "test" =
      .ok { allForDB := true }) ∧
    (parseUsersInfoCommand
      [("usersInfo", BSONValue.array
        [BSONValue.object [("user", BSONValue.string "a"), ("db", BSONValue.string "d")]])]
      "test" = .ok { userNames := [⟨"a", "d"⟩] }) ∧
    (∀ d : String, parseUsersInfoCommand [("usersInfo", BSONValue.string "a")] d =
      .ok { userNames := [⟨"a", d⟩] }) := by
  have hbp : bsonExtractBooleanFieldWithDefault cmdObj "showPrivileges" false = .ok false := by
    simp [bsonExtractBooleanFieldWithDefault, hsp]
  have hbc : bsonExtractBooleanFieldWithDefault cmdObj "showCredentials" false = .ok false := by
    simp [bsonExtractBooleanFieldWithDefault, hsc]
  refine ⟨?_, ?_, ?_, ?_, rfl, rfl, fun d => rfl⟩
  · intro h
    have hsel : usersInfoSelectorStep cmdObj dbname = .ok { allForDB := true } := by
      simp [usersInfoSelectorStep, h]
    simp [parseUsersInfoCommand, h1, hsel, hbp, hbc]
  · intro elems names hg hpr
    have hsel : usersInfoSelectorStep cmdObj dbname = .ok { userNames := names } := by
      simp [usersInfoSelectorStep, hg, elemNumberInt, BSONValue.numberInt, elemType,
        BSONValue.type, BSONValue.arrayElems, hpr, statusOK, Status.isOK]
    simp [parseUsersInfoCommand, h1, hsel, hbp, hbc]
  · intro v n hg hnum htype hname
    have hsel : usersInfoSelectorStep cmdObj dbname = .ok { userNames := [n] } := by
      simp [usersInfoSelectorStep, hg, elemNumberInt, hnum, elemType, htype, hname]
    simp [parseUsersInfoCommand, h1, hsel, hbp, hbc]
  · intro args hparse
    simp only [parseUsersInfoCommand, h1, hbp, hbc] at hparse
    cases hsel : usersInfoSelectorStep cmdObj dbname with
    | error st => simp [hsel] at hparse
    | ok args0 =>
      simp only [hsel, Except.ok.injEq] at hparse
      subst hparse
      exact ⟨rfl, rfl⟩

/-- Witness for C9 at concrete inputs: the three spec §8 selector shapes. -/
theorem usersInfo_selector_dispatch_witness :
    (parseUsersInfoCommand [("usersInfo", BSONValue.numInt 1)] "test" =
      .ok { allForDB := true }) ∧
    (parseUsersInfoCommand
      [("usersInfo", BSONValue.array
        [BSONValue.object [("user", BSONValue.string "a"), ("db", BSONValue.string "d")]])]
      "test" = .ok { userNames := [⟨"a", "d"⟩] }) ∧
    (parseUsersInfoCommand [("usersInfo", BSONValue.string "a")] "admin" =
      .ok { userNames := [⟨"a", "admin"⟩] }) :=
  ⟨(usersInfo_selector_dispatch [("usersInfo", BSONValue.numInt 1)] "test"
      rfl rfl rfl).1 rfl,
   (usersInfo_selector_dispatch
      [("usersInfo", BSONValue.array
        [BSONValue.object [("user", BSONValue.string "a"), ("db", BSONValue.string "d")]])]
      "test" rfl rfl rfl).2.1
      [BSONValue.object [("user", BSONValue.string "a"), ("db", BSONValue.string "d")]]
      [⟨"a", "d"⟩] rfl rfl,
   (usersInfo_selector_dispatch [("usersInfo", BSONValue.string "a")] "admin"
      rfl rfl rfl).2.2.1 (BSONValue.string "a") ⟨"a", "admin"⟩ rfl
      (by decide) (by decide) rfl⟩

/-- Counterexample to C10 as stated: `usersInfo: true` does not select the
"all users" branch — `numberInt()` of a boolean is `0`, so the value falls
through to the single-element branch and fails with `BadValue`, instead of
yielding `allForDB = true` as the claim asserts for boolean `true`. -/
theorem usersInfo_bool_true_not_allForDB :
    parseUsersInfoCommand [("usersInfo", BSONValue.bool true)] "test" =
      .error ⟨ErrorCodes.BadValue,
        "User and role names must be either strings or objects"⟩ :=
  rfl

/-- C10 (amended): the "all users" branch is selected by numeric coercion —
any usersInfo value whose `numberInt()` coercion is `1` (NumberInt 1,
NumberLong 1, double 1.0) sets `allForDB = true` — but only values of
numeric type coerce to their integer value; booleans coerce to `0`.  Any
non-array value coercing to something other than `1` and not a string or
object (e.g. `usersInfo: 2`, `usersInfo: false`, `usersInfo: true`) falls
through to the single-element branch and fails there with the `BadValue`
"must be either strings or objects" error. -/
theorem usersInfo_numeric_coercion :
    (∀ (v : BSONValue) (d : String), v.numberInt = 1 →
      parseUsersInfoCommand [("usersInfo", v)] d = .ok { allForDB := true }) ∧
    (parseUsersInfoCommand [("usersInfo", BSONValue.numDouble 1)] "test" =
      .ok { allForDB := true }) ∧
    (parseUsersInfoCommand [("usersInfo", BSONValue.numLong 1)] "test" =
      .ok { allForDB := true }) ∧
    (∀ (v : BSONValue) (d : String),
      v.numberInt ≠ 1 → v.type ≠ BSONType.array → v.type ≠ BSONType.string →
      v.type ≠ BSONType.object →
        parseUsersInfoCommand [("usersInfo", v)] d =
          .error ⟨ErrorCodes.BadValue,
            "User and role names must be either strings or objects"⟩) ∧
    (parseUsersInfoCommand [("usersInfo", BSONValue.numInt 2)] "test" =
      .error ⟨ErrorCodes.BadValue,
        "User and role names must be either strings or objects"⟩) ∧
    (parseUsersInfoCommand [("usersInfo", BSONValue.bool false)] "test" =
      .error ⟨ErrorCodes.BadValue,
        "User and role names must be either strings or objects"⟩) := by
  have hchk : ∀ v : BSONValue,
      _checkNoExtraFields [("usersInfo", v)] "usersInfo" usersInfoValidFieldNames =
        .ok () := by
    intro v
    exact checkNoExtraFields_ok_of_all _ _ _
      (by
        intro kv hkv
        rw [List.mem_singleton.mp hkv]
        show usersInfoValidFieldNames.contains "usersInfo" = true
        decide)
  refine ⟨?_, rfl, rfl, ?_, rfl, rfl⟩
  · intro v d h
    have hg : getField [("usersInfo", v)] "usersInfo" = some v := rfl
    have hsel : usersInfoSelectorStep [("usersInfo", v)] d = .ok { allForDB := true } := by
      simp [usersInfoSelectorStep, hg, elemNumberInt, h]
    have hb1 : bsonExtractBooleanFieldWithDefault [("usersInfo", v)]
        "showPrivileges" false = .ok false := rfl
    have hb2 : bsonExtractBooleanFieldWithDefault [("usersInfo", v)]
        "showCredentials" false = .ok false := rfl
    simp [parseUsersInfoCommand, hchk v, hsel, hb1, hb2]
  · intro v d h1 h2 h3 h4
    have hg : getField [("usersInfo", v)] "usersInfo" = some v := rfl
    have hsel : usersInfoSelectorStep [("usersInfo", v)] d =
        .error ⟨ErrorCodes.BadValue,
          "User and role names must be either strings or objects"⟩ := by
      simp [usersInfoSelectorStep, hg, elemNumberInt, h1, elemType, h2,
        _parseNameFromBSONElement, h3, h4]
    simp [parseUsersInfoCommand, hchk v, hsel]

/-- Witness for C10's amended theorem at concrete inputs: double `1.0`
coerces to the "all users" branch, boolean `true` does not. -/
theorem usersInfo_numeric_coercion_witness :
    (parseUsersInfoCommand [("usersInfo", BSONValue.numDouble 1)] "admin" =
      .ok { allForDB := true }) ∧
    (parseUsersInfoCommand [("usersInfo", BSONValue.bool true)] "admin" =
      .error ⟨ErrorCodes.BadValue,
        "User and role names must be either strings or objects"⟩) :=
  ⟨usersInfo_numeric_coercion.1 (BSONValue.numDouble 1) "admin" (by decide),
   usersInfo_numeric_coercion.2.2.2.1 (BSONValue.bool true) "admin"
     (by decide) (by decide) (by decide) (by decide)⟩

/-- Counterexample to C3 as stated: a dropUser document with a non-object
`writeConcern` and a non-string target does fail write-concern extraction,
yet the parser returns the target-name type error — `dropUser` extracts its
target before the write concern, so the write-concern error is not the one
returned. -/
theorem dropUser_returns_target_error_not_writeConcern_error :
    (parseAndValidateDropUserCommand
      [("dropUser", BSONValue.numInt 5), ("writeConcern", BSONValue.string "x")] "test" =
      .error ⟨ErrorCodes.TypeMismatch, "\"dropUser\" had the wrong type"⟩) ∧
    (_extractWriteConcern
      [("dropUser", BSONValue.numInt 5), ("writeConcern", BSONValue.string "x")] =
      .error ⟨ErrorCodes.TypeMismatch, "\"writeConcern\" had the wrong type"⟩) :=
  ⟨rfl, rfl⟩

/-- C3 (amended): every parser runs the allowlist check first and stops at
the first failure; the role-possession, create/update-user,
privilege-manipulation and create/update-role parsers then run write-concern
extraction before target-name extraction (a failing write concern is
returned even when the target is also invalid), but `dropUser` and
`dropRole` extract the target name before the write concern, so for a
document failing both it is the target-name error that is returned. -/
theorem parser_step_order :
    (∀ (cmdObj : BSONObj) (cmdName rolesFieldName dbname : String) (e : Status),
      _checkNoExtraFields cmdObj cmdName
          (rolePossessionValidFieldNames cmdName rolesFieldName) = .ok () →
      _extractWriteConcern cmdObj = .error e →
        parseRolePossessionManipulationCommands cmdObj cmdName rolesFieldName dbname =
          .error e) ∧
    (∀ (cmdObj : BSONObj) (cmdName dbname : String) (e : Status),
      _checkNoExtraFields cmdObj cmdName
          (createOrUpdateUserValidFieldNames cmdName) = .ok () →
      _extractWriteConcern cmdObj = .error e →
        parseCreateOrUpdateUserCommands cmdObj cmdName dbname = .error e) ∧
    (∀ {ParsedPrivilege Privilege : Type}
      (parseBSON : BSONObj → Except String ParsedPrivilege)
      (isValid : ParsedPrivilege → Except String Unit)
      (conv : ParsedPrivilege → Except String Privilege)
      (cmdObj : BSONObj) (cmdName dbname : String) (e : Status),
      _checkNoExtraFields cmdObj cmdName
          (rolePrivilegeManipulationValidFieldNames cmdName) = .ok () →
      _extractWriteConcern cmdObj = .error e →
        parseAndValidateRolePrivilegeManipulationCommands parseBSON isValid conv
          cmdObj cmdName dbname = .error e) ∧
    (∀ {ParsedPrivilege Privilege : Type}
      (parseBSON : BSONObj → Except String ParsedPrivilege)
      (isValid : ParsedPrivilege → Except String Unit)
      (conv : ParsedPrivilege → Except String Privilege)
      (cmdObj : BSONObj) (cmdName dbname : String) (e : Status),
      _checkNoExtraFields cmdObj cmdName
          (createOrUpdateRoleValidFieldNames cmdName) = .ok () →
      _extractWriteConcern cmdObj = .error e →
        parseCreateOrUpdateRoleCommands parseBSON isValid conv cmdObj cmdName dbname =
          .error e) ∧
    (∀ (cmdObj : BSONObj) (dbname : String) (e : Status),
      _checkNoExtraFields cmdObj "dropUser" dropUserValidFieldNames = .ok () →
      bsonExtractStringField cmdObj "dropUser" = .error e →
        parseAndValidateDropUserCommand cmdObj dbname = .error e) ∧
    (∀ (cmdObj : BSONObj) (dbname : String) (e : Status),
      _checkNoExtraFields cmdObj "dropRole" dropRoleValidFieldNames = .ok () →
      bsonExtractStringField cmdObj "dropRole" = .error e →
        parseDropRoleCommand cmdObj dbname = .error e) := by
  refine ⟨?_, ?_, ?_, ?_, ?_, ?_⟩
  · intro cmdObj cmdName rolesFieldName dbname e h1 h2
    simp [parseRolePossessionManipulationCommands, h1, h2]
  · intro cmdObj cmdName dbname e h1 h2
    simp [parseCreateOrUpdateUserCommands, h1, h2]
  · intro PP Priv parseBSON isValid conv cmdObj cmdName dbname e h1 h2
    simp [parseAndValidateRolePrivilegeManipulationCommands, h1, h2]
  · intro PP Priv parseBSON isValid conv cmdObj cmdName dbname e h1 h2
    simp [parseCreateOrUpdateRoleCommands, h1, h2]
  · intro cmdObj dbname e h1 h2
    simp [parseAndValidateDropUserCommand, h1, h2]
  · intro cmdObj dbname e h1 h2
    simp [parseDropRoleCommand, h1, h2]

/-- Witness for C3's amended theorem: with a non-object `writeConcern` and
an invalid target in the same document, the write-concern error is returned
by the write-concern-first parsers and the target error by `dropUser` and
`dropRole`. -/
theorem parser_step_order_witness :
    (parseRolePossessionManipulationCommands
      [("grantRolesToUser", BSONValue.numInt 5), ("writeConcern", BSONValue.string "x")]
      "grantRolesToUser" "roles" "test" =
      .error ⟨ErrorCodes.TypeMismatch, "\"writeConcern\" had the wrong type"⟩) ∧
    (parseCreateOrUpdateUserCommands
      [("createUser", BSONValue.numInt 5), ("writeConcern", BSONValue.string "x")]
      "createUser" "test" =
      .error ⟨ErrorCodes.TypeMismatch, "\"writeConcern\" had the wrong type"⟩) ∧
    (parseAndValidateRolePrivilegeManipulationCommands
      (fun _ => Except.ok ()) (fun _ => Except.ok ()) (fun _ => Except.ok ())
      [("grantPrivilegesToRole", BSONValue.numInt 5), ("writeConcern", BSONValue.string "x")]
      "grantPrivilegesToRole" "test" =
      .error ⟨ErrorCodes.TypeMismatch, "\"writeConcern\" had the wrong type"⟩) ∧
    (parseCreateOrUpdateRoleCommands
      (fun _ => Except.ok ()) (fun _ => Except.ok ()) (fun _ => Except.ok ())
      [("createRole", BSONValue.numInt 5), ("writeConcern", BSONValue.string "x")]
      "createRole" "test" =
      .error ⟨ErrorCodes.TypeMismatch, "\"writeConcern\" had the wrong type"⟩) ∧
    (parseAndValidateDropUserCommand
      [("dropUser", BSONValue.numInt 5), ("writeConcern", BSONValue.string "x")] "test" =
      .error ⟨ErrorCodes.TypeMismatch, "\"dropUser\" had the wrong type"⟩) ∧
    (parseDropRoleCommand
      [("dropRole", BSONValue.numInt 5), ("writeConcern", BSONValue.string "x")] "test" =
      .error ⟨ErrorCodes.TypeMismatch, "\"dropRole\" had the wrong type"⟩) :=
  ⟨parser_step_order.1 _ "grantRolesToUser" "roles" "test" _ rfl rfl,
   parser_step_order.2.1 _ "createUser" "test" _ rfl rfl,
   parser_step_order.2.2.1 _ _ _ _ "grantPrivilegesToRole" "test" _ rfl rfl,
   parser_step_order.2.2.2.1 _ _ _ _ "createRole" "test" _ rfl rfl,
   parser_step_order.2.2.2.2.1 _ "test" _ rfl rfl,
   parser_step_order.2.2.2.2.2 _ "test" _ rfl rfl⟩

/-- Counterexample to C2 as stated: the usersInfo and rolesInfo parsers do
not have `writeConcern` in their allowed-field sets, so a command document
carrying a `writeConcern` object field fails their allowlist validation. -/
theorem usersInfo_rolesInfo_reject_writeConcern :
    (parseUsersInfoCommand
      [("usersInfo", BSONValue.string "a"), ("writeConcern", BSONValue.object [])]
      "test" =
      .error ⟨ErrorCodes.BadValue, "\"writeConcern\" is not a valid argument to usersInfo"⟩) ∧
    (parseRolesInfoCommand
      [("rolesInfo", BSONValue.string "r"), ("writeConcern", BSONValue.object [])]
      "test" =
      .error ⟨ErrorCodes.BadValue, "\"writeConcern\" is not a valid argument to rolesInfo"⟩) :=
  ⟨rfl, rfl⟩

/-- C2 (amended): `writeConcern` is a member of the allowed-field sets of
the eight mutating-command parsers, so adding a `writeConcern` field to a
document that passes their allowlist still passes it; it is not a member of
the usersInfo or rolesInfo sets, whose validators reject documents carrying
it. -/
theorem writeConcern_allowlist_membership :
    (∀ cmdName rolesFieldName : String,
      "writeConcern" ∈ rolePossessionValidFieldNames cmdName rolesFieldName) ∧
    (∀ cmdName : String, "writeConcern" ∈ createOrUpdateUserValidFieldNames cmdName) ∧
    ("writeConcern" ∈ dropUserValidFieldNames) ∧
    ("writeConcern" ∈ dropUsersFromDatabaseValidFieldNames) ∧
    (∀ cmdName : String, "writeConcern" ∈ createOrUpdateRoleValidFieldNames cmdName) ∧
    (∀ cmdName : String, "writeConcern" ∈ rolePrivilegeManipulationValidFieldNames cmdName) ∧
    ("writeConcern" ∈ dropRoleValidFieldNames) ∧
    ("writeConcern" ∈ dropRolesFromDatabaseValidFieldNames) ∧
    ("writeConcern" ∉ usersInfoValidFieldNames) ∧
    ("writeConcern" ∉ rolesInfoValidFieldNames) ∧
    (∀ (cmdObj : BSONObj) (cmdName : String) (valid : List String) (v : BSONValue),
      valid.contains "writeConcern" = true →
      _checkNoExtraFields cmdObj cmdName valid = .ok () →
        _checkNoExtraFields (cmdObj ++ [("writeConcern", v)]) cmdName valid = .ok ()) := by
  refine ⟨?_, ?_, by decide, by decide, ?_, ?_, by decide, by decide, by decide, by decide, ?_⟩
  · intro cmdName rolesFieldName
    simp [rolePossessionValidFieldNames]
  · intro cmdName
    simp [createOrUpdateUserValidFieldNames]
  · intro cmdName
    simp [createOrUpdateRoleValidFieldNames]
  · intro cmdName
    simp [rolePrivilegeManipulationValidFieldNames]
  · intro cmdObj cmdName valid v hmem
    induction cmdObj with
    | nil =>
      intro _
      have hm : "writeConcern" ∈ valid := by simpa using hmem
      simp [_checkNoExtraFields, hm]
    | cons kv rest ih =>
      intro h
      cases hc : valid.contains kv.1 with
      | false =>
        simp only [_checkNoExtraFields, hc, Bool.false_eq_true, if_false] at h
        exact absurd h (by simp)
      | true =>
        simp only [_checkNoExtraFields, hc, if_true] at h
        simpa only [List.cons_append, _checkNoExtraFields, hc, if_true] using ih h

/-- Witness for C2's amended theorem: `writeConcern` is allowed for
`dropUser`, and adding it to a passing dropUser document still passes. -/
theorem writeConcern_allowlist_membership_witness :
    ("writeConcern" ∈ dropUserValidFieldNames) ∧
    (_checkNoExtraFields
      [("dropUser", BSONValue.string "alice"), ("writeConcern", BSONValue.object [])]
      "dropUser" dropUserValidFieldNames = .ok ()) :=
  ⟨writeConcern_allowlist_membership.2.2.1,
   writeConcern_allowlist_membership.2.2.2.2.2.2.2.2.2.2
     [("dropUser", BSONValue.string "alice")] "dropUser" dropUserValidFieldNames
     (BSONValue.object []) (by decide) rfl⟩

/-- C1 evidence: a privilege-manipulation command document that passes the
allowlist, the write-concern extraction and the target-role-name extraction
and whose privileges field is an explicitly-supplied empty array makes
`parseAndValidateRolePrivilegeManipulationCommands` return success with an
empty Privilege Vector — the function, unlike its role-possession sibling,
has no non-emptiness check, contradicting the spec's requirement that the
manipulated collection be non-empty. -/
theorem rolePrivilegeManipulation_accepts_empty_privileges
    {ParsedPrivilege Privilege : Type}
    (parseBSON : BSONObj → Except String ParsedPrivilege)
    (isValid : ParsedPrivilege → Except String Unit)
    (conv : ParsedPrivilege → Except String Privilege)
    (cmdObj : BSONObj) (cmdName dbname : String) (wc : BSONObj) (roleName : String)
    (h1 : _checkNoExtraFields cmdObj cmdName
      (rolePrivilegeManipulationValidFieldNames cmdName) = .ok ())
    (h2 : _extractWriteConcern cmdObj = .ok wc)
    (h3 : bsonExtractStringField cmdObj cmdName = .ok roleName)
    (h4 : getField cmdObj "privileges" = some (BSONValue.array [])) :
    parseAndValidateRolePrivilegeManipulationCommands parseBSON isValid conv
      cmdObj cmdName dbname = .ok (⟨roleName, dbname⟩, ([] : List Privilege), wc) := by
  have htyped : bsonExtractTypedField cmdObj "privileges" BSONType.array =
      .ok (BSONValue.array []) := by
    simp [bsonExtractTypedField, bsonExtractField, h4, BSONValue.type]
  simp [parseAndValidateRolePrivilegeManipulationCommands, h1, h2, h3, htyped,
    BSONValue.arrayElems, parseAndValidatePrivilegeArray, statusOK, Status.isOK]

/-- Witness for C1's evidence theorem: the concrete grant-privileges
document with `privileges: []` succeeds with an empty Privilege Vector. -/
theorem rolePrivilegeManipulation_accepts_empty_privileges_witness :
    parseAndValidateRolePrivilegeManipulationCommands
      (fun _ => Except.ok ()) (fun _ => Except.ok ()) (fun _ => Except.ok ())
      [("grantPrivilegesToRole", BSONValue.string "r1"), ("privileges", BSONValue.array [])]
      "grantPrivilegesToRole" "test" =
      .ok (⟨"r1", "test"⟩, ([] : List Unit), ([] : BSONObj)) :=
  rolePrivilegeManipulation_accepts_empty_privileges
    (fun _ => Except.ok ()) (fun _ => Except.ok ()) (fun _ => Except.ok ())
    [("grantPrivilegesToRole", BSONValue.string "r1"), ("privileges", BSONValue.array [])]
    "grantPrivilegesToRole" "test" [] "r1" rfl rfl rfl rfl

end Mongo
